import Mathlib

set_option autoImplicit false

/-!
Shallow embedding of the gradient-accumulation, device-accelerator selection,
deadlock-detection toggle and open-registration (PrivateUse1) test-extension
code of this repository, together with theorems settling the spec claims.

Embedded source files:
* `torch/csrc/autograd/functions/accumulate_grad.cpp` (AccumulateGrad node)
* `aten/src/ATen/DeviceAccelerator.cpp` (getAccelerator)
* `c10/util/DeadlockDetection.cpp` (disable_detection / SetPythonGILHooks)
* `test/cpp_extensions/open_registration_extension.cpp` (custom kernels)

Machine integers are modelled as `Nat`; reference-counted tensor handles are
modelled as records carrying an explicit `useCount` and a `storageId` that
stands for the identity of the underlying storage (two handles alias the same
storage exactly when their `storageId`s coincide). Fallible C++ code
(TORCH_CHECK / throw) is modelled with `Except String`.
-/

namespace PyTorch

/-- Scalar (element) types relevant to the claims; `double` is wider than
`float`. -/
inductive ScalarType where
  | float
  | double
  deriving DecidableEq, Repr

/-- Standard numeric type promotion on the modelled scalar types: the wider
of the two types wins. -/
def promoteTypes : ScalarType → ScalarType → ScalarType
  | ScalarType.double, _ => ScalarType.double
  | _, ScalarType.double => ScalarType.double
  | ScalarType.float, ScalarType.float => ScalarType.float

/-- A gradient tensor handle: element values, dtype, the identity of the
underlying storage, and the current reference count of the handle
(`use_count()` in the C++ source). -/
structure GradTensor where
  values : List Int
  dtype : ScalarType
  storageId : Nat
  useCount : Nat
  deriving DecidableEq, Repr

/-- A leaf autograd `Variable`: whether it requires gradients, whether it has
a producing function (`grad_fn`), and its optional `.grad` slot. -/
structure Variable where
  requires_grad : Bool
  has_grad_fn : Bool
  grad : Option GradTensor
  deriving DecidableEq, Repr

/-- `UINT64_MAX`, the sequence number given to every AccumulateGrad node. -/
def UINT64_MAX : Nat := 2 ^ 64 - 1

/-- The state of an `AccumulateGrad` node: its sequence number, the leaf
variable it is bound to, whether the node's `post_hooks()` list is empty, and
whether a `tensor_post_acc_grad_hooks()` hook is registered. -/
structure AccumulateGradNode where
  sequence_nr : Nat
  variable_ : Variable
  post_hooks_empty : Bool
  has_post_acc_grad_hook : Bool
  deriving DecidableEq, Repr

/-- The constructor `AccumulateGrad::AccumulateGrad(Variable variable_)`:
initialises the base `Node` with `sequence_nr = UINT64_MAX` and stores the
variable. A freshly constructed node has no post hooks and no
post-accumulation grad hook. -/
def AccumulateGrad.construct (v : Variable) : AccumulateGradNode :=
  { sequence_nr := UINT64_MAX
    variable_ := v
    post_hooks_empty := true
    has_post_acc_grad_hook := false }

/-- Events emitted while `AccumulateGrad::apply` runs, in program order: the
`std::lock_guard` acquires the per-node mutex, the merge is committed into
`.grad`, an optional post-accumulation hook is called with a variable, and
the lock is released when the `lock_guard` is destroyed at function exit. -/
inductive Event where
  | lockAcquire
  | commitGrad
  | hookCall (v : Variable)
  | lockRelease
  deriving DecidableEq, Repr

/-- Modelled from the spec: `check_input_variables` (declared in
`torch/csrc/autograd/functions/utils.h`, which is not under `src/`), called
as `check_input_variables("AccumulateGrad", grads, 1, 0)`. Per spec section
4.3 step 1, exactly one incoming gradient slot is expected; with
`required_args = 0` that single slot is allowed to be undefined. -/
def check_input_variables (grads : List (Option GradTensor)) : Except String Unit :=
  if grads.length = 1 then Except.ok ()
  else Except.error "AccumulateGrad: invalid number of input gradients"

/-- Modelled from the spec: the `accumulateGrad` merge helper (defined in
`torch/csrc/autograd/functions/accumulate_grad.h`, which is not under
`src/`). Per spec section 4.3 step 5: when the existing `.grad` is empty the
incoming gradient is cloned only if its reference count exceeds
`num_expected_refs`, otherwise it is stolen directly (same storage); when
`.grad` already holds a tensor the new contribution is added elementwise
under dtype promotion. A clone allocates a fresh storage, modelled as
`storageId + 1` (distinct from the incoming tensor's storage), held by a
single new reference. -/
def accumulateGradMerge (variable_grad : Option GradTensor) (new_grad : GradTensor)
    (num_expected_refs : Nat) : GradTensor :=
  match variable_grad with
  | none =>
      if num_expected_refs < new_grad.useCount then
        { values := new_grad.values
          dtype := new_grad.dtype
          storageId := new_grad.storageId + 1
          useCount := 1 }
      else
        new_grad
  | some g =>
      { values := List.zipWith (fun a b => a + b) g.values new_grad.values
        dtype := promoteTypes g.dtype new_grad.dtype
        storageId := g.storageId
        useCount := g.useCount }

/-- `AccumulateGrad::apply(variable_list&& grads)` from
`torch/csrc/autograd/functions/accumulate_grad.cpp`, as a pure state
transformer. It returns the updated node state, the returned variable list,
and the trace of events in program order. Program order in the source: the
input check, the undefined-gradient early return, the `grad_fn` throw, the
`requires_grad` early return, then under the `lock_guard` the merge with
`num_expected_refs = 1 + !post_hooks().empty()`, then the post-accumulation
hook call (still inside the `lock_guard` scope, which only ends at function
exit), then the return. -/
def AccumulateGrad.apply (node : AccumulateGradNode) (grads : List (Option GradTensor)) :
    Except String (AccumulateGradNode × List GradTensor × List Event) :=
  match check_input_variables grads with
  | Except.error e => Except.error e
  | Except.ok _ =>
    match grads with
    | [] => Except.error "unreachable: check_input_variables enforces one slot"
    | g0 :: _ =>
      match g0 with
      | none => Except.ok (node, [], [])
      | some new_grad =>
        if node.variable_.has_grad_fn then
          Except.error "leaf variable has been moved into the graph interior"
        else if node.variable_.requires_grad = false then
          Except.ok (node, [], [])
        else
          let num_expected_refs := 1 + (if node.post_hooks_empty then 0 else 1)
          let merged := accumulateGradMerge node.variable_.grad new_grad num_expected_refs
          let updatedVar : Variable :=
            { requires_grad := node.variable_.requires_grad
              has_grad_fn := node.variable_.has_grad_fn
              grad := some merged }
          let node' : AccumulateGradNode :=
            { sequence_nr := node.sequence_nr
              variable_ := updatedVar
              post_hooks_empty := node.post_hooks_empty
              has_post_acc_grad_hook := node.has_post_acc_grad_hook }
          let hookEvents :=
            if node.has_post_acc_grad_hook then [Event.hookCall updatedVar] else []
          Except.ok
            (node', [],
              [Event.lockAcquire, Event.commitGrad] ++ hookEvents ++ [Event.lockRelease])

/-- Expected-reference-count threshold used by `AccumulateGrad::apply` when
deciding whether to steal or clone: one reference held by the caller, plus
one more when the node's `post_hooks()` list is non-empty. -/
def num_expected_refs (node : AccumulateGradNode) : Nat :=
  1 + (if node.post_hooks_empty then 0 else 1)

/-- Decides whether every `hookCall` event in a trace happens while no lock
is held, tracking the lock depth event by event. -/
def hookCallsOutsideLockWindow : List Event → Nat → Bool
  | [], _ => true
  | Event.lockAcquire :: rest, d => hookCallsOutsideLockWindow rest (d + 1)
  | Event.lockRelease :: rest, d => hookCallsOutsideLockWindow rest (d - 1)
  | Event.hookCall _ :: rest, d => decide (d = 0) && hookCallsOutsideLockWindow rest d
  | Event.commitGrad :: rest, d => hookCallsOutsideLockWindow rest d

/-- A ready-queue task as seen by the engine's comparator: only the
`sequence_nr` of the wrapped node matters here. -/
structure NodeTask where
  sequence_nr : Nat
  deriving DecidableEq, Repr

/-- Modelled from the source comment in `accumulate_grad.cpp`
("AccumulateGrad sets sequence_nr to the max value so it's always called
ASAP during backwards"): the engine's ready queue is a max-priority queue
whose comparator orders tasks by `sequence_nr`, so among ready tasks the one
with the strictly greater sequence number is popped, and hence executed,
first. `pops_before t1 t2` holds when `t1` is executed before `t2`. -/
def pops_before (t1 t2 : NodeTask) : Bool :=
  t2.sequence_nr < t1.sequence_nr

/-- Device types relevant to the claims (`c10::DeviceType`). -/
inductive DeviceType where
  | cpu
  | cuda
  | mtia
  | xpu
  | hip
  | mps
  | privateUse1
  deriving DecidableEq, Repr

/-- The ambient detection state consulted by `at::getAccelerator`: the
results of `at::hasCUDA()`, `at::hasMTIA()`, `at::hasXPU()`, `at::hasHIP()`,
`at::hasMPS()` and `at::is_privateuse1_backend_registered()`. -/
structure AcceleratorContext where
  hasCUDA : Bool
  hasMTIA : Bool
  hasXPU : Bool
  hasHIP : Bool
  hasMPS : Bool
  is_privateuse1_backend_registered : Bool
  deriving DecidableEq, Repr

/-- One expansion of the `DETECT_AND_ASSIGN_ACCELERATOR(device_name)` macro
from `aten/src/ATen/DeviceAccelerator.cpp`: if the device is detected, fail
when another accelerator was already detected, otherwise record this device
as the accelerator. -/
def detect_and_assign_accelerator (has : Bool) (d : DeviceType)
    (st : Except String (Option DeviceType × Bool)) :
    Except String (Option DeviceType × Bool) :=
  match st with
  | Except.error e => Except.error e
  | Except.ok (device_type, is_accelerator_detected) =>
    if has then
      if is_accelerator_detected then
        Except.error "Cannot have accelerator with other accelerators."
      else
        Except.ok (some d, true)
    else
      Except.ok (device_type, is_accelerator_detected)

/-- `at::getAccelerator(bool checked)` from
`aten/src/ATen/DeviceAccelerator.cpp`: when a PrivateUse1 backend is
registered it is returned immediately; otherwise the built-in accelerators
are detected in order CUDA, MTIA, XPU, HIP, MPS, failing if more than one is
present; finally, when `checked` is set, the absence of any accelerator is an
error. -/
def getAccelerator (ctx : AcceleratorContext) (checked : Bool) :
    Except String (Option DeviceType) :=
  if ctx.is_privateuse1_backend_registered then
    Except.ok (some DeviceType.privateUse1)
  else
    match
      detect_and_assign_accelerator ctx.hasMPS DeviceType.mps
        (detect_and_assign_accelerator ctx.hasHIP DeviceType.hip
          (detect_and_assign_accelerator ctx.hasXPU DeviceType.xpu
            (detect_and_assign_accelerator ctx.hasMTIA DeviceType.mtia
              (detect_and_assign_accelerator ctx.hasCUDA DeviceType.cuda
                (Except.ok (none, false)))))) with
    | Except.error e => Except.error e
    | Except.ok (device_type, _) =>
      if checked && device_type.isNone then
        Except.error "Cannot access accelerator device when none is available."
      else
        Except.ok device_type

/-- Number of built-in accelerators (CUDA, MTIA, XPU, HIP, MPS) detected in
a context. -/
def builtin_accelerators_detected (ctx : AcceleratorContext) : Nat :=
  (cond ctx.hasCUDA 1 0) + (cond ctx.hasMTIA 1 0) + (cond ctx.hasXPU 1 0) +
    (cond ctx.hasHIP 1 0) + (cond ctx.hasMPS 1 0)

/-- The process environment as far as `c10/util/DeadlockDetection.cpp` reads
it: the value of the `TORCH_DISABLE_DEADLOCK_DETECTION` environment variable,
`none` when unset ( `std::getenv` returning null). -/
structure EnvState where
  torch_disable_deadlock_detection : Option String
  deriving DecidableEq, Repr

/-- `disable_detection()` from `c10/util/DeadlockDetection.cpp`: a pure
presence check of `TORCH_DISABLE_DEADLOCK_DETECTION` — true exactly when
`std::getenv` returns non-null, whatever the value. -/
def disable_detection (env : EnvState) : Bool :=
  env.torch_disable_deadlock_detection.isSome

/-- A `PythonGILHooks` object, identified by its address. -/
structure PythonGILHooks where
  id : Nat
  deriving DecidableEq, Repr

/-- `c10::impl::SetPythonGILHooks(PythonGILHooks* hooks)` from
`c10/util/DeadlockDetection.cpp`, as a transformer of the stored
`python_gil_hooks` pointer: when detection is disabled via the environment
the call returns immediately leaving the stored pointer unchanged; otherwise
`TORCH_INTERNAL_ASSERT(!hooks || !python_gil_hooks)` fires if both the
argument and the stored pointer are non-null, and otherwise the argument is
stored. -/
def SetPythonGILHooks (env : EnvState) (python_gil_hooks : Option PythonGILHooks)
    (hooks : Option PythonGILHooks) : Except String (Option PythonGILHooks) :=
  if disable_detection env then
    Except.ok python_gil_hooks
  else if hooks.isSome && python_gil_hooks.isSome then
    Except.error "INTERNAL ASSERT FAILED: !hooks || !python_gil_hooks"
  else
    Except.ok hooks

/-- A tensor handle of the open-registration test extension: device, sizes,
scalar type, contiguity, storage identity, storage size in bytes, and the
element values — `none` when the underlying allocation was never
initialised (`at::empty`). -/
structure CTensor where
  device : DeviceType
  sizes : List Nat
  scalar_type : ScalarType
  is_contiguous : Bool
  storageId : Nat
  storage_nbytes : Nat
  data : Option (List Int)
  deriving DecidableEq, Repr

/-- Element size in bytes of a modelled scalar type. -/
def element_size : ScalarType → Nat
  | ScalarType.float => 4
  | ScalarType.double => 8

/-- Number of elements of a size list. -/
def numel (sizes : List Nat) : Nat := sizes.foldl (fun a b => a * b) 1

/-- `at::empty(sizes, options)`: allocates a fresh, uninitialised tensor with
the given sizes and the option-carried device and dtype. The fresh
allocation's storage identity is not tracked (no claim depends on it), and
its contents are uninitialised (`data = none`). -/
def at_empty (sizes : List Nat) (device : DeviceType) (dtype : ScalarType) : CTensor :=
  { device := device
    sizes := sizes
    scalar_type := dtype
    is_contiguous := true
    storageId := 0
    storage_nbytes := numel sizes * element_size dtype
    data := none }

/-- `custom_add_Tensor(self, other, alpha)` from
`test/cpp_extensions/open_registration_extension.cpp`: increments the
global `add_counter` and returns `at::empty(self.sizes(), self.options())` —
the kernel is a stub that does not compute the elementwise sum. The counter
is threaded explicitly. -/
def custom_add_Tensor (self other : CTensor) (alpha : Int) (add_counter : Nat) :
    CTensor × Nat :=
  (at_empty self.sizes self.device self.scalar_type, add_counter + 1)

/-- The pair of globals read by `custom_add_called()`: the `add_counter` and
the `last_saved_value` snapshot. -/
structure AddCounterState where
  add_counter : Nat
  last_saved_value : Nat
  deriving DecidableEq, Repr

/-- `custom_add_called()` from
`test/cpp_extensions/open_registration_extension.cpp`: reports whether the
add counter advanced since the last observation and, if so, saves the new
value. -/
def custom_add_called (s : AddCounterState) : Bool × AddCounterState :=
  if s.last_saved_value < s.add_counter then
    (true, { add_counter := s.add_counter, last_saved_value := s.add_counter })
  else
    (false, s)

/-- A generator factory, identified by its address. -/
structure GeneratorFactory where
  id : Nat
  deriving DecidableEq, Repr

/-- `make_generator_privateuse1`, the factory function registered by both
`register_generator_first` and `register_generator_second` in
`test/cpp_extensions/open_registration_extension.cpp`. -/
def make_generator_privateuse1 : GeneratorFactory := { id := 1 }

/-- Modelled from the spec: the PrivateUse1 generator-factory registry (the
single-writer slot behind `REGISTER_GENERATOR_PRIVATEUSE1`, which lives in
`ATen/core/GeneratorForPrivateuseone.h`, not under `src/`). Per spec
sections 4.4 and 8.8, the factory may be registered exactly once: a second
registration attempt fails with a distinct error and, the transformer being
fallible, the slot passed by the caller is left unchanged on failure. -/
def register_generator_privateuse1 (slot : Option GeneratorFactory)
    (f : GeneratorFactory) : Except String (Option GeneratorFactory) :=
  match slot with
  | some _ =>
      Except.error "Only can register a generator to the PrivateUse1 dispatch key once"
  | none => Except.ok (some f)

/-- `register_generator_first()` from
`test/cpp_extensions/open_registration_extension.cpp`: expands
`REGISTER_GENERATOR_PRIVATEUSE1(make_generator_privateuse1)`. -/
def register_generator_first (slot : Option GeneratorFactory) :
    Except String (Option GeneratorFactory) :=
  register_generator_privateuse1 slot make_generator_privateuse1

/-- `register_generator_second()` from
`test/cpp_extensions/open_registration_extension.cpp`: expands the same
macro a second time. -/
def register_generator_second (slot : Option GeneratorFactory) :
    Except String (Option GeneratorFactory) :=
  register_generator_privateuse1 slot make_generator_privateuse1

/-- Lookup of the registered PrivateUse1 generator factory (modelled from
the spec: `GetGeneratorPrivate`). -/
def get_generator_privateuse1 (slot : Option GeneratorFactory) :
    Option GeneratorFactory := slot

/-- How `custom__copy_from` performed the copy: a raw `std::memcpy` of the
whole storage (destination storage, source storage, byte count), or a
strided copy routed through CPU tensor views of the two operands. -/
inductive CopyMechanism where
  | rawMemcpy (dstStorage : Nat) (srcStorage : Nat) (nbytes : Nat)
  | cpuStridedCopy (cpu_self : CTensor) (cpu_dst : CTensor)
  deriving DecidableEq, Repr

/-- `unsafe_create_cpu_tensor_from_dummy_tensor(src)` from
`test/cpp_extensions/open_registration_extension.cpp`: requires a
PrivateUse1 tensor and builds a CPU tensor over the very same data pointer —
same sizes, strides, offset, dtype and storage bytes, only the device
changes, so the result aliases the source's storage. -/
def unsafe_create_cpu_tensor_from_dummy_tensor (src : CTensor) :
    Except String CTensor :=
  if src.device = DeviceType.privateUse1 then
    Except.ok
      { device := DeviceType.cpu
        sizes := src.sizes
        scalar_type := src.scalar_type
        is_contiguous := src.is_contiguous
        storageId := src.storageId
        storage_nbytes := src.storage_nbytes
        data := src.data }
  else
    Except.error "Only support dummy device."

/-- `custom__copy_from(self, dst, non_blocking)` from
`test/cpp_extensions/open_registration_extension.cpp`: checks that both
tensors live on CPU or the PrivateUse1 device and have equal sizes and equal
scalar types; then copies raw storage bytes with `std::memcpy` when both
tensors are contiguous, and otherwise routes the copy through CPU views
(`convert_to_cpu_tensor`) of the PrivateUse1 operands; returns `dst`. -/
def custom__copy_from (self dst : CTensor) (non_blocking : Bool) :
    Except String (CTensor × CopyMechanism) :=
  if ¬ (self.device = DeviceType.cpu ∨ self.device = DeviceType.privateUse1) then
    Except.error "Dummy test only allows copy from cpu -> dummy device."
  else if ¬ (dst.device = DeviceType.cpu ∨ dst.device = DeviceType.privateUse1) then
    Except.error "Dummy test only allows copy from cpu -> dummy device."
  else if ¬ self.sizes = dst.sizes then
    Except.error "TORCH_CHECK failed: self.sizes() == dst.sizes()"
  else if ¬ self.scalar_type = dst.scalar_type then
    Except.error "TORCH_CHECK failed: self.scalar_type() == dst.scalar_type()"
  else if self.is_contiguous && dst.is_contiguous then
    Except.ok (dst, CopyMechanism.rawMemcpy dst.storageId self.storageId self.storage_nbytes)
  else
    let convert_to_cpu_tensor : CTensor → CTensor := fun src =>
      if src.device = DeviceType.privateUse1 then
        { device := DeviceType.cpu
          sizes := src.sizes
          scalar_type := src.scalar_type
          is_contiguous := src.is_contiguous
          storageId := src.storageId
          storage_nbytes := src.storage_nbytes
          data := src.data }
      else
        src
    Except.ok (dst, CopyMechanism.cpuStridedCopy (convert_to_cpu_tensor self) (convert_to_cpu_tensor dst))

/-!
## Theorems
-/

/-- Helper: the exact result of `AccumulateGrad::apply` on a defined incoming
gradient when the leaf has no `grad_fn` and requires gradients. -/
theorem AccumulateGrad.apply_defined_eq (node : AccumulateGradNode) (g : GradTensor)
    (hfn : node.variable_.has_grad_fn = false)
    (hreq : node.variable_.requires_grad = true) :
    AccumulateGrad.apply node [some g] =
      Except.ok
        ({ sequence_nr := node.sequence_nr
           variable_ :=
             { requires_grad := true
               has_grad_fn := false
               grad := some (accumulateGradMerge node.variable_.grad g (num_expected_refs node)) }
           post_hooks_empty := node.post_hooks_empty
           has_post_acc_grad_hook := node.has_post_acc_grad_hook },
          [],
          [Event.lockAcquire, Event.commitGrad] ++
            (if node.has_post_acc_grad_hook then
              [Event.hookCall
                { requires_grad := true
                  has_grad_fn := false
                  grad :=
                    some (accumulateGradMerge node.variable_.grad g (num_expected_refs node)) }]
            else []) ++
            [Event.lockRelease]) := by
  simp [AccumulateGrad.apply, check_input_variables, num_expected_refs, hfn, hreq]

/-- C1: in `AccumulateGrad::apply` with an empty `.grad` slot, the threshold
`num_expected_refs` is `1 + 1` when post hooks are registered and `1`
otherwise; an incoming gradient whose reference count is at or below the
threshold is stolen directly into `.grad` (the very same handle, hence the
same underlying storage), while one whose reference count exceeds the
threshold is cloned into a fresh storage holding equal values. -/
theorem AccumulateGrad.apply_steals_at_or_below_threshold_clones_above
    (node : AccumulateGradNode) (g : GradTensor)
    (hfn : node.variable_.has_grad_fn = false)
    (hreq : node.variable_.requires_grad = true)
    (hempty : node.variable_.grad = none) :
    num_expected_refs node = 1 + (if node.post_hooks_empty then 0 else 1)
    ∧ (g.useCount ≤ num_expected_refs node →
        ∃ node' tr, AccumulateGrad.apply node [some g] = Except.ok (node', [], tr)
          ∧ node'.variable_.grad = some g)
    ∧ (num_expected_refs node < g.useCount →
        ∃ node' tr g2, AccumulateGrad.apply node [some g] = Except.ok (node', [], tr)
          ∧ node'.variable_.grad = some g2 ∧ g2.values = g.values ∧ g2.dtype = g.dtype
          ∧ g2.storageId ≠ g.storageId) := by
  refine ⟨rfl, ?_, ?_⟩
  · intro hle
    refine ⟨_, _, AccumulateGrad.apply_defined_eq node g hfn hreq, ?_⟩
    simp [accumulateGradMerge, hempty, Nat.not_lt.mpr hle]
  · intro hgt
    refine ⟨_, _, _, AccumulateGrad.apply_defined_eq node g hfn hreq, rfl, ?_, ?_, ?_⟩ <;>
      simp [accumulateGradMerge, hempty, hgt]

/-- C1 witness: at a node freshly constructed for a leaf with empty `.grad`
(threshold `1`, no post hooks), a gradient with reference count `1` is
stolen, and a gradient with reference count `5` is cloned into a different
storage with the same values. -/
theorem AccumulateGrad.apply_steals_at_or_below_threshold_clones_above_witness :
    (∃ node' tr,
        AccumulateGrad.apply (AccumulateGrad.construct ⟨true, false, none⟩)
            [some ⟨[5, 7], ScalarType.float, 21, 1⟩] = Except.ok (node', [], tr)
          ∧ node'.variable_.grad = some ⟨[5, 7], ScalarType.float, 21, 1⟩)
    ∧ (∃ node' tr g2,
        AccumulateGrad.apply (AccumulateGrad.construct ⟨true, false, none⟩)
            [some ⟨[5, 7], ScalarType.float, 21, 5⟩] = Except.ok (node', [], tr)
          ∧ node'.variable_.grad = some g2 ∧ g2.values = [5, 7]
          ∧ g2.dtype = ScalarType.float ∧ g2.storageId ≠ 21) :=
  ⟨(AccumulateGrad.apply_steals_at_or_below_threshold_clones_above
      (AccumulateGrad.construct ⟨true, false, none⟩) ⟨[5, 7], ScalarType.float, 21, 1⟩
      rfl rfl rfl).2.1 (by decide),
   (AccumulateGrad.apply_steals_at_or_below_threshold_clones_above
      (AccumulateGrad.construct ⟨true, false, none⟩) ⟨[5, 7], ScalarType.float, 21, 5⟩
      rfl rfl rfl).2.2 (by decide)⟩

/-- C2: `AccumulateGrad::apply` with an undefined incoming gradient slot, or
on a leaf that does not require gradients, returns successfully with an
empty result list and the node state (hence the `.grad` slot) unchanged —
neither condition is an error. -/
theorem AccumulateGrad.apply_noop_on_undefined_or_no_requires_grad
    (node : AccumulateGradNode) (g : GradTensor) :
    AccumulateGrad.apply node [none] = Except.ok (node, [], [])
    ∧ (node.variable_.has_grad_fn = false → node.variable_.requires_grad = false →
        AccumulateGrad.apply node [some g] = Except.ok (node, [], [])) := by
  constructor
  · rfl
  · intro hfn hreq
    simp [AccumulateGrad.apply, check_input_variables, hfn, hreq]

/-- C2 witness: at a concrete grad-requiring leaf, `apply` of an undefined
slot is a no-op; at a concrete non-grad-requiring leaf, `apply` of a defined
gradient is a no-op. -/
theorem AccumulateGrad.apply_noop_on_undefined_or_no_requires_grad_witness :
    AccumulateGrad.apply (AccumulateGrad.construct ⟨true, false, none⟩) [none] =
        Except.ok (AccumulateGrad.construct ⟨true, false, none⟩, [], [])
    ∧ AccumulateGrad.apply (AccumulateGrad.construct ⟨false, false, none⟩)
          [some ⟨[3], ScalarType.float, 4, 1⟩] =
        Except.ok (AccumulateGrad.construct ⟨false, false, none⟩, [], []) :=
  ⟨(AccumulateGrad.apply_noop_on_undefined_or_no_requires_grad
      (AccumulateGrad.construct ⟨true, false, none⟩) ⟨[3], ScalarType.float, 4, 1⟩).1,
   (AccumulateGrad.apply_noop_on_undefined_or_no_requires_grad
      (AccumulateGrad.construct ⟨false, false, none⟩) ⟨[3], ScalarType.float, 4, 1⟩).2
      rfl rfl⟩

/-- C3: `AccumulateGrad::apply` with a defined incoming gradient on a
variable that has a producing function throws (`std::logic_error`). The
throw happens before the lock is taken and before `.grad` is touched; in
this pure embedding an error result carries no updated state, so the
caller's node — and with it the `.grad` slot — is unchanged. -/
theorem AccumulateGrad.apply_throws_on_grad_fn
    (node : AccumulateGradNode) (g : GradTensor)
    (hfn : node.variable_.has_grad_fn = true) :
    AccumulateGrad.apply node [some g] =
      Except.error "leaf variable has been moved into the graph interior" := by
  simp [AccumulateGrad.apply, check_input_variables, hfn]

/-- C3 witness: a concrete variable with a producing function makes `apply`
throw on a defined gradient. -/
theorem AccumulateGrad.apply_throws_on_grad_fn_witness :
    AccumulateGrad.apply (AccumulateGrad.construct ⟨true, true, none⟩)
        [some ⟨[3], ScalarType.float, 4, 1⟩] =
      Except.error "leaf variable has been moved into the graph interior" :=
  AccumulateGrad.apply_throws_on_grad_fn (AccumulateGrad.construct ⟨true, true, none⟩)
    ⟨[3], ScalarType.float, 4, 1⟩ rfl

/-- C4 counterexample: at a concrete node with a registered
post-accumulation hook, the event trace of a successful `apply` is
`[lockAcquire, commitGrad, hookCall v, lockRelease]` — the hook runs after
the commit and before `apply` returns, but strictly inside the lock window:
the `std::lock_guard` declared at function scope is destroyed only at
function exit, after the hook call, so the hook is not invoked outside the
lock window as the claim states. -/
theorem AccumulateGrad.apply_hook_inside_lock_counterexample :
    AccumulateGrad.apply
        { sequence_nr := UINT64_MAX
          variable_ := ⟨true, false, none⟩
          post_hooks_empty := true
          has_post_acc_grad_hook := true }
        [some ⟨[1], ScalarType.float, 3, 1⟩] =
      Except.ok
        ({ sequence_nr := UINT64_MAX
           variable_ := ⟨true, false, some ⟨[1], ScalarType.float, 3, 1⟩⟩
           post_hooks_empty := true
           has_post_acc_grad_hook := true },
          [],
          [Event.lockAcquire, Event.commitGrad,
            Event.hookCall ⟨true, false, some ⟨[1], ScalarType.float, 3, 1⟩⟩,
            Event.lockRelease])
    ∧ hookCallsOutsideLockWindow
        [Event.lockAcquire, Event.commitGrad,
          Event.hookCall ⟨true, false, some ⟨[1], ScalarType.float, 3, 1⟩⟩,
          Event.lockRelease] 0 = false :=
  ⟨rfl, rfl⟩

/-- C4 (amended): after the merge is committed, a registered
post-accumulation hook is invoked synchronously with the now-updated leaf
Variable (`v' = node'.variable_`, whose `.grad` holds the merged gradient),
before `apply` returns — but inside the lock window of the per-leaf mutex,
since the `lock_guard` is released only at function exit, after the hook
runs. -/
theorem AccumulateGrad.apply_hook_called_after_commit_within_lock
    (node : AccumulateGradNode) (g : GradTensor)
    (hfn : node.variable_.has_grad_fn = false)
    (hreq : node.variable_.requires_grad = true)
    (hhook : node.has_post_acc_grad_hook = true) :
    ∃ node' v', AccumulateGrad.apply node [some g] =
        Except.ok (node', [],
          [Event.lockAcquire, Event.commitGrad, Event.hookCall v', Event.lockRelease])
      ∧ v' = node'.variable_
      ∧ v'.grad = some (accumulateGradMerge node.variable_.grad g (num_expected_refs node)) := by
  refine
    ⟨{ sequence_nr := node.sequence_nr
       variable_ :=
         { requires_grad := true
           has_grad_fn := false
           grad := some (accumulateGradMerge node.variable_.grad g (num_expected_refs node)) }
       post_hooks_empty := node.post_hooks_empty
       has_post_acc_grad_hook := node.has_post_acc_grad_hook },
      _, ?_, rfl, rfl⟩
  rw [AccumulateGrad.apply_defined_eq node g hfn hreq, hhook]
  simp

/-- C4 (amended) witness: at a concrete node with a hook, the trace is
exactly commit-then-hook-then-unlock, with the hook receiving the updated
variable. -/
theorem AccumulateGrad.apply_hook_called_after_commit_within_lock_witness :
    ∃ node' v',
      AccumulateGrad.apply
          { sequence_nr := UINT64_MAX
            variable_ := ⟨true, false, none⟩
            post_hooks_empty := true
            has_post_acc_grad_hook := true }
          [some ⟨[2], ScalarType.double, 9, 1⟩] =
        Except.ok (node', [],
          [Event.lockAcquire, Event.commitGrad, Event.hookCall v', Event.lockRelease])
      ∧ v' = node'.variable_
      ∧ v'.grad =
          some (accumulateGradMerge none ⟨[2], ScalarType.double, 9, 1⟩
            (num_expected_refs
              { sequence_nr := UINT64_MAX
                variable_ := ⟨true, false, none⟩
                post_hooks_empty := true
                has_post_acc_grad_hook := true })) :=
  AccumulateGrad.apply_hook_called_after_commit_within_lock
    { sequence_nr := UINT64_MAX
      variable_ := ⟨true, false, none⟩
      post_hooks_empty := true
      has_post_acc_grad_hook := true }
    ⟨[2], ScalarType.double, 9, 1⟩ rfl rfl rfl

/-- C8 counterexample: an AccumulateGrad node is constructed with
`sequence_nr = UINT64_MAX`, and under the engine's ready-queue comparator
(max-priority on `sequence_nr`, per the source comment "so it's always
called ASAP during backwards") the AccumulateGrad task pops *before* another
ready task with sequence number `5` — the highest execution priority, not
the lowest as the claim states. -/
theorem AccumulateGrad.sequence_nr_not_lowest_priority_counterexample :
    (AccumulateGrad.construct ⟨true, false, none⟩).sequence_nr = UINT64_MAX
    ∧ pops_before
        { sequence_nr := (AccumulateGrad.construct ⟨true, false, none⟩).sequence_nr }
        { sequence_nr := 5 } = true
    ∧ pops_before { sequence_nr := 5 }
        { sequence_nr := (AccumulateGrad.construct ⟨true, false, none⟩).sequence_nr } = false := by
  refine ⟨rfl, ?_, ?_⟩ <;> decide

/-- C8 (amended): every AccumulateGrad node is constructed with
`sequence_nr = UINT64_MAX`, so that among ready tasks of the same backward
wave the AccumulateGrad task is popped first by the engine's max-sequence-
number queue comparator — scheduled as soon as possible, with the highest
execution priority among ready nodes. -/
theorem AccumulateGrad.sequence_nr_max_runs_first
    (v : Variable) (t : NodeTask) (h : t.sequence_nr < UINT64_MAX) :
    (AccumulateGrad.construct v).sequence_nr = UINT64_MAX
    ∧ pops_before { sequence_nr := (AccumulateGrad.construct v).sequence_nr } t = true := by
  exact ⟨rfl, by simpa [pops_before, AccumulateGrad.construct] using h⟩

/-- C8 (amended) witness: a concrete AccumulateGrad node pops before a ready
task with sequence number `5`. -/
theorem AccumulateGrad.sequence_nr_max_runs_first_witness :
    (AccumulateGrad.construct ⟨true, false, none⟩).sequence_nr = UINT64_MAX
    ∧ pops_before
        { sequence_nr := (AccumulateGrad.construct ⟨true, false, none⟩).sequence_nr }
        { sequence_nr := 5 } = true :=
  AccumulateGrad.sequence_nr_max_runs_first ⟨true, false, none⟩ { sequence_nr := 5 }
    (by decide)

/-- C9: the deadlock-detection disable switch is a pure presence check of
`TORCH_DISABLE_DEADLOCK_DETECTION` — any value (including the empty string)
counts as set, no parsing — and whenever the variable is present,
`SetPythonGILHooks` returns without installing anything: the stored hooks
pointer is unchanged. -/
theorem SetPythonGILHooks_noop_when_env_set
    (env : EnvState) (stored hooks : Option PythonGILHooks) (v : String)
    (h : env.torch_disable_deadlock_detection = some v) :
    disable_detection env = true
    ∧ SetPythonGILHooks env stored hooks = Except.ok stored := by
  have hd : disable_detection env = true := by simp [disable_detection, h]
  exact ⟨hd, by simp [SetPythonGILHooks, hd]⟩

/-- C9 witness: with the variable present with the empty string as value and
no hooks stored, installing a non-null hooks pointer is skipped — the stored
pointer stays `none`. -/
theorem SetPythonGILHooks_noop_when_env_set_witness :
    disable_detection { torch_disable_deadlock_detection := some "" } = true
    ∧ SetPythonGILHooks { torch_disable_deadlock_detection := some "" } none (some ⟨7⟩) =
        Except.ok none :=
  SetPythonGILHooks_noop_when_env_set { torch_disable_deadlock_detection := some "" }
    none (some ⟨7⟩) "" rfl

/-- C5 counterexample: calling the custom backend's `add.Tensor` kernel on a
`[1,1,1]` tensor and a same-shape `[2,2,2]` tensor does not yield `[3,3,3]`:
the stub returns `at::empty(self.sizes(), self.options())`, whose contents
are uninitialised (`data = none`), so no definite value — in particular not
`[3,3,3]` — is produced. -/
theorem custom_add_Tensor_not_three_counterexample :
    (custom_add_Tensor
        ⟨DeviceType.privateUse1, [3], ScalarType.float, true, 11, 12, some [1, 1, 1]⟩
        ⟨DeviceType.privateUse1, [3], ScalarType.float, true, 12, 12, some [2, 2, 2]⟩
        1 0).1.data = none
    ∧ ¬ (custom_add_Tensor
        ⟨DeviceType.privateUse1, [3], ScalarType.float, true, 11, 12, some [1, 1, 1]⟩
        ⟨DeviceType.privateUse1, [3], ScalarType.float, true, 12, 12, some [2, 2, 2]⟩
        1 0).1.data = some [3, 3, 3] := by
  exact ⟨rfl, by decide⟩

/-- C5 (amended): each call to the custom `add.Tensor` kernel returns an
uninitialised tensor with the caller's shape and options (not the
elementwise sum), and increments the add call counter, so a subsequent
`custom_add_called()` — with all earlier calls already observed — reports
that the custom kernel was reached. -/
theorem custom_add_Tensor_stub_increments_counter
    (self other : CTensor) (alpha : Int) (s : AddCounterState)
    (h : s.last_saved_value ≤ s.add_counter) :
    (custom_add_Tensor self other alpha s.add_counter).1.sizes = self.sizes
    ∧ (custom_add_Tensor self other alpha s.add_counter).1.device = self.device
    ∧ (custom_add_Tensor self other alpha s.add_counter).1.scalar_type = self.scalar_type
    ∧ (custom_add_Tensor self other alpha s.add_counter).1.data = none
    ∧ (custom_add_Tensor self other alpha s.add_counter).2 = s.add_counter + 1
    ∧ (custom_add_called
        { add_counter := (custom_add_Tensor self other alpha s.add_counter).2
          last_saved_value := s.last_saved_value }).1 = true := by
  refine ⟨rfl, rfl, rfl, rfl, rfl, ?_⟩
  simp [custom_add_Tensor, custom_add_called, Nat.lt_succ_of_le h]

/-- C5 (amended) witness: the claim's concrete scenario — `[1,1,1]` plus
`[2,2,2]` on the custom device with a fresh counter state — returns an
uninitialised `[3]`-shaped PrivateUse1 tensor and the counter observation
fires. -/
theorem custom_add_Tensor_stub_increments_counter_witness :
    (custom_add_Tensor
        ⟨DeviceType.privateUse1, [3], ScalarType.float, true, 11, 12, some [1, 1, 1]⟩
        ⟨DeviceType.privateUse1, [3], ScalarType.float, true, 12, 12, some [2, 2, 2]⟩
        1 0).1.sizes = [3]
    ∧ (custom_add_Tensor
        ⟨DeviceType.privateUse1, [3], ScalarType.float, true, 11, 12, some [1, 1, 1]⟩
        ⟨DeviceType.privateUse1, [3], ScalarType.float, true, 12, 12, some [2, 2, 2]⟩
        1 0).1.device = DeviceType.privateUse1
    ∧ (custom_add_Tensor
        ⟨DeviceType.privateUse1, [3], ScalarType.float, true, 11, 12, some [1, 1, 1]⟩
        ⟨DeviceType.privateUse1, [3], ScalarType.float, true, 12, 12, some [2, 2, 2]⟩
        1 0).1.scalar_type = ScalarType.float
    ∧ (custom_add_Tensor
        ⟨DeviceType.privateUse1, [3], ScalarType.float, true, 11, 12, some [1, 1, 1]⟩
        ⟨DeviceType.privateUse1, [3], ScalarType.float, true, 12, 12, some [2, 2, 2]⟩
        1 0).1.data = none
    ∧ (custom_add_Tensor
        ⟨DeviceType.privateUse1, [3], ScalarType.float, true, 11, 12, some [1, 1, 1]⟩
        ⟨DeviceType.privateUse1, [3], ScalarType.float, true, 12, 12, some [2, 2, 2]⟩
        1 0).2 = 1
    ∧ (custom_add_called
        { add_counter :=
            (custom_add_Tensor
              ⟨DeviceType.privateUse1, [3], ScalarType.float, true, 11, 12, some [1, 1, 1]⟩
              ⟨DeviceType.privateUse1, [3], ScalarType.float, true, 12, 12, some [2, 2, 2]⟩
              1 0).2
          last_saved_value := 0 }).1 = true :=
  custom_add_Tensor_stub_increments_counter
    ⟨DeviceType.privateUse1, [3], ScalarType.float, true, 11, 12, some [1, 1, 1]⟩
    ⟨DeviceType.privateUse1, [3], ScalarType.float, true, 12, 12, some [2, 2, 2]⟩
    1 { add_counter := 0, last_saved_value := 0 } (by decide)

/-- C6: registering the PrivateUse1 generator factory once on the empty slot
succeeds; the second registration attempt on the now-occupied slot fails
with a distinct error while the slot value held by the process is untouched,
so a subsequent lookup still returns the originally registered factory. -/
theorem register_generator_twice_rejected :
    register_generator_first none = Except.ok (some make_generator_privateuse1)
    ∧ register_generator_second (some make_generator_privateuse1) =
        Except.error "Only can register a generator to the PrivateUse1 dispatch key once"
    ∧ get_generator_privateuse1 (some make_generator_privateuse1) =
        some make_generator_privateuse1 :=
  ⟨rfl, rfl, rfl⟩

/-- C7: whenever a PrivateUse1 backend is registered, `getAccelerator`
returns PrivateUse1 first, regardless of which other accelerators are
detected; without a PrivateUse1 backend, detecting two or more of the
built-in accelerators (CUDA, MTIA, XPU, HIP, MPS) makes `getAccelerator`
fail. -/
theorem getAccelerator_at_most_one_builtin_privateuse1_first
    (ctx : AcceleratorContext) (checked : Bool) :
    (ctx.is_privateuse1_backend_registered = true →
      getAccelerator ctx checked = Except.ok (some DeviceType.privateUse1))
    ∧ (ctx.is_privateuse1_backend_registered = false →
      2 ≤ builtin_accelerators_detected ctx →
      (getAccelerator ctx checked).isOk = false) := by
  constructor
  · intro hpu
    simp [getAccelerator, hpu]
  · intro hpu hcnt
    obtain ⟨c, m, x, h, p, pu⟩ := ctx
    revert hpu hcnt
    revert checked
    cases c <;> cases m <;> cases x <;> cases h <;> cases p <;> cases pu <;> decide

/-- C7 witness: with PrivateUse1 registered alongside CUDA and XPU,
`getAccelerator` returns PrivateUse1; with the same two built-in
accelerators but no PrivateUse1 backend, it fails. -/
theorem getAccelerator_at_most_one_builtin_privateuse1_first_witness :
    getAccelerator ⟨true, false, true, false, false, true⟩ false =
        Except.ok (some DeviceType.privateUse1)
    ∧ (getAccelerator ⟨true, false, true, false, false, false⟩ false).isOk = false :=
  ⟨(getAccelerator_at_most_one_builtin_privateuse1_first
      ⟨true, false, true, false, false, true⟩ false).1 rfl,
   (getAccelerator_at_most_one_builtin_privateuse1_first
      ⟨true, false, true, false, false, false⟩ false).2 rfl (by decide)⟩

/-- C10: `custom__copy_from` throws unless both tensors are on CPU or the
PrivateUse1 device with equal sizes and equal scalar types; under these
preconditions it returns `dst`, copying raw storage bytes directly when both
tensors are contiguous and otherwise routing the copy through CPU views that
alias the very same storage as the operands. -/
theorem custom__copy_from_checks_and_paths (self dst : CTensor) (nb : Bool) :
    (¬ ((self.device = DeviceType.cpu ∨ self.device = DeviceType.privateUse1)
        ∧ (dst.device = DeviceType.cpu ∨ dst.device = DeviceType.privateUse1)
        ∧ self.sizes = dst.sizes ∧ self.scalar_type = dst.scalar_type) →
      (custom__copy_from self dst nb).isOk = false)
    ∧ ((self.device = DeviceType.cpu ∨ self.device = DeviceType.privateUse1) →
       (dst.device = DeviceType.cpu ∨ dst.device = DeviceType.privateUse1) →
       self.sizes = dst.sizes → self.scalar_type = dst.scalar_type →
       (self.is_contiguous = true → dst.is_contiguous = true →
         custom__copy_from self dst nb =
           Except.ok
             (dst, CopyMechanism.rawMemcpy dst.storageId self.storageId self.storage_nbytes))
       ∧ (¬ (self.is_contiguous = true ∧ dst.is_contiguous = true) →
         ∃ cs cd, custom__copy_from self dst nb =
             Except.ok (dst, CopyMechanism.cpuStridedCopy cs cd)
           ∧ cs.storageId = self.storageId ∧ cd.storageId = dst.storageId
           ∧ cs.device = DeviceType.cpu ∧ cd.device = DeviceType.cpu)) := by
  constructor
  · intro hbad
    unfold custom__copy_from
    split_ifs with h1 h2 h3 h4 h5 <;>
      first
        | rfl
        | exact absurd ⟨h1, h2, h3, h4⟩ hbad
  · intro hd1 hd2 hsz hst
    constructor
    · intro hc1 hc2
      unfold custom__copy_from
      rw [if_neg (not_not_intro hd1), if_neg (not_not_intro hd2),
        if_neg (not_not_intro hsz), if_neg (not_not_intro hst),
        if_pos (by simp [hc1, hc2])]
    · intro hnc
      unfold custom__copy_from
      rw [if_neg (not_not_intro hd1), if_neg (not_not_intro hd2),
        if_neg (not_not_intro hsz), if_neg (not_not_intro hst),
        if_neg (by simpa [Bool.and_eq_true] using hnc)]
      refine ⟨_, _, rfl, ?_, ?_, ?_, ?_⟩
      · by_cases hp : self.device = DeviceType.privateUse1 <;> simp [hp]
      · by_cases hp : dst.device = DeviceType.privateUse1 <;> simp [hp]
      · rcases hd1 with h | h <;> simp [h]
      · rcases hd2 with h | h <;> simp [h]

/-- C10 witness: a CUDA source makes the copy throw; two contiguous
same-shape float tensors take the raw-memcpy path; a non-contiguous
PrivateUse1 source takes the CPU-view path with both views on CPU and
aliasing the operands' storages. -/
theorem custom__copy_from_checks_and_paths_witness :
    (custom__copy_from ⟨DeviceType.cuda, [2], ScalarType.float, true, 1, 8, some [1, 2]⟩
        ⟨DeviceType.cpu, [2], ScalarType.float, true, 2, 8, some [0, 0]⟩ false).isOk = false
    ∧ custom__copy_from ⟨DeviceType.privateUse1, [2], ScalarType.float, true, 1, 8, some [1, 2]⟩
        ⟨DeviceType.cpu, [2], ScalarType.float, true, 2, 8, some [0, 0]⟩ false =
        Except.ok (⟨DeviceType.cpu, [2], ScalarType.float, true, 2, 8, some [0, 0]⟩,
          CopyMechanism.rawMemcpy 2 1 8)
    ∧ (∃ cs cd, custom__copy_from
          ⟨DeviceType.privateUse1, [2], ScalarType.float, false, 3, 8, some [1, 2]⟩
          ⟨DeviceType.cpu, [2], ScalarType.float, true, 4, 8, some [0, 0]⟩ false =
          Except.ok (⟨DeviceType.cpu, [2], ScalarType.float, true, 4, 8, some [0, 0]⟩,
            CopyMechanism.cpuStridedCopy cs cd)
        ∧ cs.storageId = 3 ∧ cd.storageId = 4
        ∧ cs.device = DeviceType.cpu ∧ cd.device = DeviceType.cpu) :=
  ⟨(custom__copy_from_checks_and_paths
      ⟨DeviceType.cuda, [2], ScalarType.float, true, 1, 8, some [1, 2]⟩
      ⟨DeviceType.cpu, [2], ScalarType.float, true, 2, 8, some [0, 0]⟩ false).1 (by decide),
   ((custom__copy_from_checks_and_paths
      ⟨DeviceType.privateUse1, [2], ScalarType.float, true, 1, 8, some [1, 2]⟩
      ⟨DeviceType.cpu, [2], ScalarType.float, true, 2, 8, some [0, 0]⟩ false).2
      (Or.inr rfl) (Or.inl rfl) rfl rfl).1 rfl rfl,
   ((custom__copy_from_checks_and_paths
      ⟨DeviceType.privateUse1, [2], ScalarType.float, false, 3, 8, some [1, 2]⟩
      ⟨DeviceType.cpu, [2], ScalarType.float, true, 4, 8, some [0, 0]⟩ false).2
      (Or.inr rfl) (Or.inl rfl) rfl rfl).2 (by decide)⟩

end PyTorch
